import Mathlib

/-! Verification of the ViktorAI retrieval-and-quality-gated generation pipeline.

Shallow embedding of the Python sources:
  * `src/vector_store.py`   — `SimpleVectorStore` (save / load / search)
  * `src/indexer.py`        — markdown sectioning and overlapping chunking
  * `src/response_classifier.py` — feature extraction and the two-branch scorer
  * `src/evaluator.py`      — rubric parsing, question typing, weighted score
  * `src/llm_interface.py`  — conversation-history state transitions
  * `src/viktor_ai.py`      — the bounded-retry generation loop

Floating-point numbers are modelled as real numbers (ℝ) where analysis
(sqrt, exp) is involved and as rationals (ℚ) where all arithmetic is
field arithmetic, so that concrete runs are decidable.  Python strings
are modelled as `List Char`.
-/

set_option maxHeartbeats 1600000
set_option maxRecDepth 4000

/-- Python whitespace class `\s` (and the characters stripped by `str.strip()`),
restricted to ASCII, which covers every string the sources manipulate. -/
def isPyWs (c : Char) : Bool :=
  c == ' ' || c == '\t' || c == '\n' || c == '\r' || c == '\x0b' || c == '\x0c'

/-- Python `str.strip()` with no arguments: remove leading and trailing whitespace. -/
def pyStrip (l : List Char) : List Char :=
  ((l.dropWhile isPyWs).reverse.dropWhile isPyWs).reverse

/-- Python `str.strip(chars)`: remove leading and trailing characters drawn from `cs`. -/
def pyStripChars (cs : List Char) (l : List Char) : List Char :=
  ((l.dropWhile (cs.contains ·)).reverse.dropWhile (cs.contains ·)).reverse

/-- Worker for `pySplit`: accumulates the current piece (reversed) while
scanning.  The structural `fuel` only bounds the scan (each step consumes at
least one character, so `fuel = length` never runs out); the out-of-fuel case
is unreachable. -/
def pySplitGo (sep : List Char) : Nat → List Char → List Char → List (List Char)
  | _, [], acc => [acc.reverse]
  | 0, s, acc => [acc.reverse ++ s]
  | fuel + 1, c :: rest, acc =>
    if sep ≠ [] ∧ sep.isPrefixOf (c :: rest) then
      acc.reverse :: pySplitGo sep fuel ((c :: rest).drop sep.length) []
    else
      pySplitGo sep fuel rest (c :: acc)

/-- Python `str.split(sep)` with an explicit separator: splits on every
non-overlapping occurrence, keeping empty pieces. -/
def pySplit (sep : List Char) (l : List Char) : List (List Char) :=
  pySplitGo sep l.length l []

/-- Worker for `pyCount` on a non-empty pattern `a :: subRest`. -/
def pyCountNe (a : Char) (subRest : List Char) : List Char → Nat
  | [] => 0
  | c :: rest =>
    if (a :: subRest).isPrefixOf (c :: rest) then
      1 + pyCountNe a subRest (rest.drop subRest.length)
    else
      pyCountNe a subRest rest
termination_by l => l.length
decreasing_by
  · simp only [List.length_drop, List.length_cons]
    omega
  · simp

/-- Python `str.count(sub)`: number of non-overlapping occurrences of `sub`,
scanning left to right (`len + 1` for the empty pattern, as in Python). -/
def pyCount (sub s : List Char) : Nat :=
  match sub with
  | [] => s.length + 1
  | a :: subRest => pyCountNe a subRest s

/-- Python substring membership `sub in s`. -/
def pySubstr (sub : List Char) : List Char → Bool
  | [] => sub.isEmpty
  | c :: rest => sub.isPrefixOf (c :: rest) || pySubstr sub rest

/-- Python `len(s.split())`: number of maximal runs of non-whitespace characters. -/
def pyWordCount : List Char → Nat
  | [] => 0
  | c :: rest =>
    if isPyWs c then pyWordCount rest
    else 1 + pyWordCount (rest.dropWhile (fun d => !(isPyWs d)))
termination_by l => l.length
decreasing_by
  · simp
  · have := (List.dropWhile_suffix (l := rest) (fun d => !(isPyWs d))).length_le
    simp only [List.length_cons]
    omega

/-- Python `str.lower()` (ASCII case folding, which covers the sources). -/
def pyLower (l : List Char) : List Char := l.map Char.toLower

/-- Python `sep.join(pieces)`. -/
def pyJoin (sep : List Char) (pieces : List (List Char)) : List Char :=
  List.intercalate sep pieces

/- ===================== Vector store (src/vector_store.py) ===================== -/

/-- In-memory state of `SimpleVectorStore`: parallel arrays of embeddings,
document texts and metadata entries (`__init__` / fields of the Python class).
Metadata dictionaries are opaque to the store, hence the type parameter. -/
structure SimpleVectorStore (μ : Type) where
  embedding_dimension : Nat
  vectors : List (List ℝ)
  documents : List String
  metadata : List μ

/-- Flat persisted form written by `SimpleVectorStore.save`: the JSON document
`{embedding_dimension, vectors, documents, metadata}`. -/
structure StoredData (μ : Type) where
  embedding_dimension : Nat
  vectors : List (List ℝ)
  documents : List String
  metadata : List μ

/-- Models `SimpleVectorStore.save`: serialises the four fields verbatim. -/
def SimpleVectorStore.save {μ : Type} (st : SimpleVectorStore μ) : StoredData μ :=
  ⟨st.embedding_dimension, st.vectors, st.documents, st.metadata⟩

/-- Models `SimpleVectorStore.load`: rebuilds the store from the four stored fields.
The Python classmethod assigns `vectors`, `documents` and `metadata` directly
from the parsed JSON and performs no consistency check of any kind. -/
def SimpleVectorStore.load {μ : Type} (d : StoredData μ) : SimpleVectorStore μ :=
  ⟨d.embedding_dimension, d.vectors, d.documents, d.metadata⟩

/-- Models `np.dot` on two 1-D vectors (the sources only call it with equal lengths). -/
noncomputable def dotList (a b : List ℝ) : ℝ :=
  (List.zipWith (fun x y => x * y) a b).sum

/-- Models `np.linalg.norm`: the L2 norm. -/
noncomputable def l2norm (v : List ℝ) : ℝ :=
  Real.sqrt ((v.map (fun x => x ^ 2)).sum)

/-- Query normalisation step of `SimpleVectorStore.search`: divide by the norm
when it is positive, otherwise leave the query unchanged. -/
noncomputable def pyNormalize (q : List ℝ) : List ℝ :=
  let n := l2norm q
  if 0 < n then q.map (fun x => x / n) else q

/-- Indices `0..n-1` sorted by descending score.  Models both NumPy selection
branches of `search`: `np.argsort(scores)[::-1]`, and the `np.argpartition`
top-k selection followed by a descending sort of the selected indices.  NumPy
leaves the order of tied scores unspecified (its quicksort is not stable); the
model fixes ties by insertion order, which is the spec reading and does not
affect any claim below. -/
noncomputable def argsortDesc (scores : List ℝ) : List Nat :=
  List.insertionSort (fun i j => scores.getD j 0 ≤ scores.getD i 0)
    (List.range scores.length)

/-- Top-k index selection of `search` (lines 76-81): the full descending
argsort when `len(scores) <= top_k`; otherwise the argpartition branch.  The
Python slice `[-top_k:]` on the argpartition result is the whole array when
`top_k == 0` (so everything is kept and then fully sorted); for `top_k ≥ 1`
it keeps the `top_k` largest, i.e. the first `top_k` entries of the full
descending argsort. -/
noncomputable def topIndices (scores : List ℝ) (top_k : Nat) : List Nat :=
  if scores.length ≤ top_k then argsortDesc scores
  else if top_k = 0 then argsortDesc scores
  else (argsortDesc scores).take top_k

/-- Models `SimpleVectorStore.search`: empty-store guard, query normalisation,
dot-product scores against the raw stored vectors, then top-k selection and
result assembly `(index, score, document, metadata)`. -/
noncomputable def SimpleVectorStore.search {μ : Type} [Inhabited μ]
    (st : SimpleVectorStore μ) (query : List ℝ) (top_k : Nat) :
    List (Nat × ℝ × String × μ) :=
  if st.documents.length = 0 then []
  else
    let q := pyNormalize query
    let scores := st.vectors.map (fun v => dotList v q)
    let top := topIndices scores top_k
    top.map (fun i => (i, scores.getD i 0, st.documents.getD i "", st.metadata.getD i default))

/-- Cosine similarity as the specification describes the search scores:
both the query and the stored embedding L2-normalised before the dot product.
This definition follows the SPEC wording (§4.2), for comparison against the
code's `search` above. -/
noncomputable def cosineSimilaritySpec (q v : List ℝ) : ℝ :=
  dotList (pyNormalize q) (pyNormalize v)

/- ===================== Indexer (src/indexer.py) ===================== -/

/-- Loop body of `split_text_into_chunks`: folds over the paragraph list,
keeping the current chunk.  A paragraph that would push the current chunk
past `chunk_size` first flushes the chunk (stripped) and restarts from the
last `overlap` characters of the unstripped chunk; every paragraph is then
appended, glued with a blank line when the chunk is non-empty. -/
def chunksGo (chunk_size overlap : Nat) : List (List Char) → List Char → List (List Char)
  | [], cur => if cur.isEmpty then [] else [pyStrip cur]
  | p :: ps, cur =>
    let flushed :=
      if chunk_size < cur.length + p.length ∧ ¬ cur.isEmpty then
        ([pyStrip cur],
          if 0 < overlap then cur.drop (cur.length - overlap) else ([] : List Char))
      else (([] : List (List Char)), cur)
    let cur2 := if flushed.2.isEmpty then p else flushed.2 ++ ('\n' :: '\n' :: p)
    flushed.1 ++ chunksGo chunk_size overlap ps cur2

/-- Models `split_text_into_chunks(text, chunk_size, overlap)`: split on blank lines
and re-accumulate into overlapping windows (defaults at call sites). -/
def split_text_into_chunks (text : List Char) (chunk_size overlap : Nat) : List (List Char) :=
  if text.isEmpty then [] else chunksGo chunk_size overlap (pySplit ['\n', '\n'] text) []

/-- Loop body of `extract_sections_from_markdown`: scan lines; a `# ` or
`## ` line closes the current section (kept only if both the title and the
accumulated content list are non-empty) and opens a new one.  Content lines
are accumulated in reverse. -/
def extractGo : List (List Char) → List Char → List (List Char) → List (List Char × List Char)
  | [], curSec, curContent =>
    if ¬ curSec.isEmpty ∧ ¬ curContent.isEmpty then
      [(curSec, pyJoin ['\n'] curContent.reverse)]
    else []
  | line :: rest, curSec, curContent =>
    if ['#', ' '].isPrefixOf line ∨ ['#', '#', ' '].isPrefixOf line then
      (if ¬ curSec.isEmpty ∧ ¬ curContent.isEmpty then
        [(curSec, pyJoin ['\n'] curContent.reverse)]
      else []) ++ extractGo rest line []
    else
      extractGo rest curSec (line :: curContent)

/-- Models `extract_sections_from_markdown(text)`: list of `(section_title, content)`. -/
def extract_sections_from_markdown (text : List Char) : List (List Char × List Char) :=
  extractGo (pySplit ['\n'] text) [] []

/-- Metadata attached to an indexed document (`metadata` dicts built in
`process_character_data`).  The Python key `section` is `sectionTitle` here. -/
structure DocMetadata where
  source : List Char
  sectionTitle : List Char
  part : Option Nat
  total_parts : Option Nat
  type : List Char
deriving DecidableEq

/-- One entry of the document list built by `process_character_data`. -/
structure PyDocument where
  text : List Char
  metadata : DocMetadata
deriving DecidableEq

/-- Character set of Python `str.strip('# ')`. -/
def hashSpace : List Char := ['#', ' ']

/-- The f-string `f"{section_title} (Part {i}/{total})\n\n{chunk}"`. -/
def partText (title : List Char) (i total : Nat) (chunk : List Char) : List Char :=
  title ++ (" (Part ").toList ++ (Nat.repr i).toList ++ ("/").toList ++
    (Nat.repr total).toList ++ (")").toList ++ ('\n' :: '\n' :: chunk)

/-- Character-analysis branch of `process_character_data` (lines 184-208):
sections longer than 1000 characters are chunked with window 500 / overlap
100 and tagged `part` / `total_parts`; shorter sections become one document. -/
def processAnalysisSection (title content : List Char) : List PyDocument :=
  if 1000 < content.length then
    let chunks := split_text_into_chunks content 500 100
    chunks.enum.map (fun ic =>
      { text := partText title (ic.1 + 1) chunks.length ic.2
        metadata :=
          { source := ("character_analysis").toList
            sectionTitle := pyStripChars hashSpace title
            part := some (ic.1 + 1)
            total_parts := some chunks.length
            type := ("scenes_and_events").toList } })
  else
    [{ text := title ++ ('\n' :: '\n' :: content)
       metadata :=
         { source := ("character_analysis").toList
           sectionTitle := pyStripChars hashSpace title
           part := none
           total_parts := none
           type := ("scenes_and_events").toList } }]

/-- All sections of the character-analysis file, in order. -/
def processAnalysisSections (sections : List (List Char × List Char)) : List PyDocument :=
  sections.flatMap (fun tc => processAnalysisSection tc.1 tc.2)

/-- Non-analysis branch of `process_character_data` (e.g. the core profile,
lines 104-113): every section becomes exactly one document, never chunked,
with no `part` / `total_parts` tags. -/
def processSimpleSections (source ty : List Char) (sections : List (List Char × List Char)) :
    List PyDocument :=
  sections.map (fun tc =>
    { text := tc.1 ++ ('\n' :: '\n' :: tc.2)
      metadata :=
        { source := source
          sectionTitle := pyStripChars hashSpace tc.1
          part := none
          total_parts := none
          type := ty } })

/- ============== Response classifier (src/response_classifier.py) ============== -/

/-- Models `torch.sigmoid`. -/
noncomputable def sigmoid (x : ℝ) : ℝ := 1 / (1 + Real.exp (-x))

/-- Models `F.relu` applied componentwise. -/
noncomputable def reluVec (v : List ℝ) : List ℝ := v.map (fun t => max t 0)

/-- Models `nn.Linear`: rows of weights paired with biases. -/
noncomputable def linearLayer (w : List (List ℝ)) (b : List ℝ) (x : List ℝ) : List ℝ :=
  List.zipWith (fun row bi => dotList row x + bi) w b

/-- Weights of `ResponseQualityModel`: two independent branches of
`Linear → ReLU → Linear → ReLU → Linear → sigmoid`. -/
structure ResponseQualityModel where
  character_layer1_w : List (List ℝ)
  character_layer1_b : List ℝ
  character_layer2_w : List (List ℝ)
  character_layer2_b : List ℝ
  character_output_w : List (List ℝ)
  character_output_b : List ℝ
  quality_layer1_w : List (List ℝ)
  quality_layer1_b : List ℝ
  quality_layer2_w : List (List ℝ)
  quality_layer2_b : List ℝ
  quality_output_w : List (List ℝ)
  quality_output_b : List ℝ

/-- Models `ResponseQualityModel.forward`: the 1-element output of each branch is
squeezed to a scalar (`headD 0`). -/
noncomputable def ResponseQualityModel.forward (m : ResponseQualityModel) (x : List ℝ) : ℝ × ℝ :=
  let character := reluVec (linearLayer m.character_layer1_w m.character_layer1_b x)
  let character2 := reluVec (linearLayer m.character_layer2_w m.character_layer2_b character)
  let character_score := sigmoid ((linearLayer m.character_output_w m.character_output_b character2).headD 0)
  let quality := reluVec (linearLayer m.quality_layer1_w m.quality_layer1_b x)
  let quality2 := reluVec (linearLayer m.quality_layer2_w m.quality_layer2_b quality)
  let quality_score := sigmoid ((linearLayer m.quality_output_w m.quality_output_b quality2).headD 0)
  (character_score, quality_score)

/-- The fixed domain vocabulary of `_prepare_features`. -/
def character_terms : List (List Char) :=
  (["hextech", "hexcore", "progress", "evolution", "science", "research", "viktor",
    "cough", "disability", "illness", "zaun", "piltover", "jayce", "sky",
    "heimerdinger", "future"]).map String.toList

/-- Models `ResponseClassifier._prepare_features`: term counts over the lowercased
`prompt + " " + response`, then the two word-count features. -/
noncomputable def prepare_features (prompt response : List Char) : List ℝ :=
  let text := pyLower (prompt ++ (' ' :: response))
  let term_counts : List ℝ := character_terms.map (fun t => (pyCount t text : ℝ))
  term_counts ++ [(pyWordCount response : ℝ), (pyWordCount prompt : ℝ)]

/-- Result dictionary of `ResponseClassifier.evaluate_response`. -/
structure EvalScores where
  character_accuracy : ℝ
  response_quality : ℝ
  overall_score : ℝ

/-- Models `ResponseClassifier.evaluate_response`: run the model on the features and
report both scores plus their average. -/
noncomputable def ResponseClassifier.evaluate_response (m : ResponseQualityModel)
    (prompt response : List Char) : EvalScores :=
  let x := prepare_features prompt response
  let cq := m.forward x
  ⟨cq.1, cq.2, (cq.1 + cq.2) / 2⟩

/- ===================== Rubric evaluator (src/evaluator.py) ===================== -/

/-- Case-insensitive literal match (re.IGNORECASE over the ASCII patterns of
`evaluator.py`): returns the remainder after the matched literal. -/
def ciMatch : List Char → List Char → Option (List Char)
  | [], s => some s
  | _ :: _, [] => none
  | a :: as, c :: cs => if a.toLower = c.toLower then ciMatch as cs else none

/-- Decimal digit run to a natural number. -/
def digitsToNat (ds : List Char) : Nat :=
  ds.foldl (fun n c => 10 * n + (c.toNat - ('0').toNat)) 0

/-- The number pattern `\d+(?:\.\d+)?` anchored at the start of `s`, converted
exactly as Python `float` converts the matched text. -/
def parseNumAt (s : List Char) : Option ℚ :=
  let ds := s.takeWhile Char.isDigit
  if ds.isEmpty then none
  else
    let intVal : ℚ := (digitsToNat ds : ℚ)
    match s.drop ds.length with
    | '.' :: r2 =>
      let fs := r2.takeWhile Char.isDigit
      if fs.isEmpty then some intVal
      else some (intVal + (digitsToNat fs : ℚ) / ((10 : ℚ) ^ fs.length))
    | _ => some intVal

/-- One attempt of the score regex at a fixed position: the label (matched
case-insensitively), a colon (mandatory for `Overall Score:`, optional `:?`
for the other two), greedy `\s*`, then `\d+(?:\.\d+)?`. -/
def tryScoreAt (label : List Char) (colonOpt : Bool) (s : List Char) : Option ℚ :=
  match ciMatch label s with
  | none => none
  | some r1 =>
    let r2? : Option (List Char) :=
      if colonOpt then
        some (match r1 with
              | ':' :: t => t
              | _ => r1)
      else
        match r1 with
        | ':' :: t => some t
        | _ => none
    match r2? with
    | none => none
    | some r2 => parseNumAt (r2.dropWhile isPyWs)

/-- Models `re.search` for a score pattern: leftmost position where the whole
pattern matches; positions where only the label matches are skipped, exactly
as the regex engine does. -/
def findScoreNum (label : List Char) (colonOpt : Bool) : List Char → Option ℚ
  | [] => tryScoreAt label colonOpt []
  | c :: rest =>
    match tryScoreAt label colonOpt (c :: rest) with
    | some v => some v
    | none => findScoreNum label colonOpt rest

/-- Lookahead of the reasoning regexes: `(?=\n\n|\n[A-Z]|lit...|$)` under
re.IGNORECASE and re.DOTALL (`[A-Z]` matches both cases). -/
def isStopAt (stopLits : List (List Char)) (s : List Char) : Bool :=
  s.isEmpty
  || (match s with
      | '\n' :: '\n' :: _ => true
      | '\n' :: c :: _ => c.isAlpha
      | _ => false)
  || stopLits.any (fun lit => (ciMatch lit s).isSome)

/-- The non-greedy capture `(.*?)` before the lookahead: shortest prefix
after which a stop alternative matches. -/
def captureUntil (stopLits : List (List Char)) : List Char → List Char
  | [] => []
  | c :: rest => if isStopAt stopLits (c :: rest) then [] else c :: captureUntil stopLits rest

/-- One attempt of a reasoning regex at a fixed position: label, optional
colon, greedy `\s*`, non-greedy capture, then the immediate `.strip()` the
source applies to `group(1)`. -/
def tryReasoningAt (label : List Char) (stopLits : List (List Char)) (s : List Char) :
    Option (List Char) :=
  match ciMatch label s with
  | none => none
  | some r1 =>
    let r2 := match r1 with
              | ':' :: t => t
              | _ => r1
    some (pyStrip (captureUntil stopLits (r2.dropWhile isPyWs)))

/-- Models `re.search` for a reasoning pattern (it succeeds at the first label
occurrence, since the capture may be empty and `$` is a stop alternative). -/
def findReasoning (label : List Char) (stopLits : List (List Char)) :
    List Char → Option (List Char)
  | [] => tryReasoningAt label stopLits []
  | c :: rest =>
    match tryReasoningAt label stopLits (c :: rest) with
    | some v => some v
    | none => findReasoning label stopLits rest

/-- Models `re.sub(r'\*\*\s*', '', s)` worker: drop each `**` and the whitespace run
after it.  Structural fuel bounds the scan (one unit per step, each step
consumes at least one character), so `fuel = length` never runs out. -/
def subStarWsGo : Nat → List Char → List Char
  | _, [] => []
  | 0, s => s
  | fuel + 1, '*' :: '*' :: rest => subStarWsGo fuel (rest.dropWhile isPyWs)
  | fuel + 1, c :: rest => c :: subStarWsGo fuel rest

/-- Models `re.sub(r'\*\*\s*', '', s)`. -/
def subStarWs (s : List Char) : List Char := subStarWsGo s.length s

/-- Models `re.sub(r'\s*\*\*', '', s)` worker: at each position, a whitespace run
directly followed by `**` is dropped; otherwise the scan advances one
character.  Fuel as in `subStarWsGo`. -/
def subWsStarGo : Nat → List Char → List Char
  | _, [] => []
  | 0, s => s
  | fuel + 1, c :: rest =>
    let w := (c :: rest).takeWhile isPyWs
    let r := (c :: rest).drop w.length
    if ['*', '*'].isPrefixOf r then subWsStarGo fuel (r.drop 2)
    else c :: subWsStarGo fuel rest

/-- Models `re.sub(r'\s*\*\*', '', s)`. -/
def subWsStar (s : List Char) : List Char := subWsStarGo s.length s

/-- The backquote character, `chr(96)`. -/
def backquoteChar : Char := Char.ofNat 96

/-- Models `re.sub(r'```', '', s)` worker: remove each triple backquote.  Fuel as in
`subStarWsGo`. -/
def subTicksGo : Nat → List Char → List Char
  | _, [] => []
  | 0, s => s
  | fuel + 1, c :: rest =>
    if (c :: rest).take 3 = [backquoteChar, backquoteChar, backquoteChar] then
      subTicksGo fuel ((c :: rest).drop 3)
    else c :: subTicksGo fuel rest

/-- Models `re.sub(r'```', '', s)`. -/
def subTicks (s : List Char) : List Char := subTicksGo s.length s

/-- The string clean-up loop of `Evaluator.evaluate_response` (lines 387-395):
strip `**` markers, backquotes, then surrounding whitespace. -/
def cleanupText (s : List Char) : List Char :=
  pyStrip (subTicks (subWsStar (subStarWs s)))

/-- Score clamping loop (lines 398-404): scores forced into [0, 10]. -/
def clampScore (q : ℚ) : ℚ :=
  if q < 0 then 0 else if 10 < q then 10 else q

/-- The metrics dictionary produced by `Evaluator.evaluate_response`. -/
structure EvalMetrics where
  overall_score : ℚ
  overall_reasoning : List Char
  primary_dimension_score : ℚ
  primary_dimension_reasoning : List Char
  character_consistency_score : ℚ
  character_consistency_reasoning : List Char
  question_type : List Char
deriving DecidableEq

/-- Default replacing a missing overall reasoning. -/
def overallReasoningDefault : List Char :=
  ("No detailed reasoning was provided by the evaluator for this score. This may indicate that the evaluation was not complete or the response format was unexpected.").toList

/-- Default replacing a missing primary-dimension reasoning. -/
def primaryReasoningDefault : List Char :=
  ("No detailed reasoning was provided by the evaluator for the primary dimension score. This may indicate an evaluation issue with this response.").toList

/-- Default replacing a missing character-consistency reasoning. -/
def consistencyReasoningDefault : List Char :=
  ("No detailed reasoning was provided by the evaluator for the character consistency score. This suggests an issue with the evaluation format.").toList

/-- Label literals of the six extraction regexes. -/
def overallScoreLabel : List Char := ("Overall Score").toList

/-- Label of the overall-reasoning regex. -/
def overallReasoningLabel : List Char := ("Overall Reasoning").toList

/-- Label of the primary-dimension score regex. -/
def primaryScoreLabel : List Char := ("Primary Dimension Score").toList

/-- Label of the primary-dimension reasoning regex. -/
def primaryReasoningLabel : List Char := ("Primary Dimension Reasoning").toList

/-- Label of the character-consistency score regex. -/
def consistencyScoreLabel : List Char := ("Character Consistency Score").toList

/-- Label of the character-consistency reasoning regex. -/
def consistencyReasoningLabel : List Char := ("Character Consistency Reasoning").toList

/-- Parsing phase of `Evaluator.evaluate_response` (lines 319-406): each of the
six fields is extracted by its own `re.search`, individually defaulted when the
search fails (score 5.0, reasoning a fixed placeholder), strings are cleaned
up, and scores are clamped to [0, 10].  `question_type` is also a string in
the metrics dict, so the clean-up loop runs over it too. -/
def parseMetrics (t qt : List Char) : EvalMetrics :=
  { overall_score := clampScore ((findScoreNum overallScoreLabel false t).getD 5)
    overall_reasoning :=
      cleanupText ((findReasoning overallReasoningLabel [primaryScoreLabel] t).getD
        overallReasoningDefault)
    primary_dimension_score := clampScore ((findScoreNum primaryScoreLabel true t).getD 5)
    primary_dimension_reasoning :=
      cleanupText ((findReasoning primaryReasoningLabel [consistencyScoreLabel] t).getD
        primaryReasoningDefault)
    character_consistency_score := clampScore ((findScoreNum consistencyScoreLabel true t).getD 5)
    character_consistency_reasoning :=
      cleanupText ((findReasoning consistencyReasoningLabel [] t).getD
        consistencyReasoningDefault)
    question_type := cleanupText qt }

/-- Identity keyword list of `get_question_type`. -/
def identityKeywords : List (List Char) :=
  (["who are you", "tell me about yourself", "what\x27s your name",
    "introduce yourself", "what\x27s your identity", "who is viktor"]).map String.toList

/-- Technical keyword list of `get_question_type`. -/
def technicalKeywords : List (List Char) :=
  (["hexcore", "hextech", "technology", "research", "work", "scientific",
    "limitations", "improve", "applications", "experiment", "invention"]).map String.toList

/-- Relationship keyword list of `get_question_type`. -/
def relationshipKeywords : List (List Char) :=
  (["jayce", "heimerdinger", "sky", "relationship", "friend", "colleague",
    "thoughts on", "council", "caitlyn", "silco", "academy"]).map String.toList

/-- Philosophical keyword list of `get_question_type`. -/
def philosophicalKeywords : List (List Char) :=
  (["evolution", "glorious", "future", "humanity", "progress", "philosophy",
    "believe", "think about", "purpose", "divide", "piltover and zaun",
    "change one decision", "meaning", "vision", "goal"]).map String.toList

/-- The `specific_questions` literal table (keys are already lowercase). -/
def specificQuestions : List (List Char × List Char) :=
  ([("how do you feel about your condition?", "identity"),
    ("what motivates your scientific work?", "identity"),
    ("what happened when sky tried to help you with the hexcore?", "relationship"),
    ("how did you feel when jayce presented hextech to the academy?", "relationship"),
    ("what was your reaction to being dismissed from the hextech project?", "relationship"),
    ("tell me about your disagreement with heimerdinger about progress and hextech.", "relationship"),
    ("what happened during your presentation to the council?", "relationship")]).map
    (fun p => (p.1.toList, p.2.toList))

/-- Models `Evaluator.get_question_type`: headings map first (authoritative), then the
four keyword rules in order on the lowercased question, then the literal
table, defaulting to `identity`. -/
def get_question_type (question : List Char) (headings_map : List (List Char × List Char)) :
    List Char :=
  match headings_map.find? (fun p => p.1 == question) with
  | some p => p.2
  | none =>
    let ql := pyLower question
    if identityKeywords.any (fun k => pySubstr k ql) then ("identity").toList
    else if technicalKeywords.any (fun k => pySubstr k ql) then ("technical").toList
    else if relationshipKeywords.any (fun k => pySubstr k ql) then ("relationship").toList
    else if philosophicalKeywords.any (fun k => pySubstr k ql) then ("philosophical").toList
    else
      match specificQuestions.find? (fun p => p.1 == ql) with
      | some p => p.2
      | none => ("identity").toList

/-- Fallback metrics returned by the `except` clause of
`Evaluator.evaluate_response` (lines 408-419) when the judge call raised `e`. -/
def fallbackMetrics (e qt : List Char) : EvalMetrics :=
  { overall_score := 5
    overall_reasoning :=
      ("The evaluation process encountered an error: ").toList ++ e ++
        (". This is a fallback score provided when the evaluation couldn\x27t be completed properly.").toList
    primary_dimension_score := 5
    primary_dimension_reasoning :=
      ("This is a default fallback score. The primary dimension evaluation couldn\x27t be completed due to an error in the evaluation process.").toList
    character_consistency_score := 5
    character_consistency_reasoning :=
      ("This is a default fallback score. The character consistency evaluation couldn\x27t be completed due to an error in the evaluation process.").toList
    question_type := qt }

/-- Models `Evaluator.evaluate_response`: determine the question type (given or
computed), then one judge call whose outcome — the returned text, or the
exception it raised — is the `judge` argument (the HTTP transport and prompt
assembly do not influence the metrics).  Parse on success, fall back on error. -/
def Evaluator.evaluate_response (judge : Except (List Char) (List Char))
    (question : List Char) (question_type : Option (List Char))
    (headings_map : List (List Char × List Char)) : EvalMetrics :=
  let qt := question_type.getD (get_question_type question headings_map)
  match judge with
  | Except.ok txt => parseMetrics txt qt
  | Except.error e => fallbackMetrics e qt

/-- Models `Evaluator.calculate_weighted_score`: fixed weights 0.6 / 0.4 for every
question type; the `metrics.get(..., 5.0)` defaults are dead for the total
record produced by `evaluate_response`. -/
def calculate_weighted_score (metrics : EvalMetrics) : ℚ :=
  metrics.primary_dimension_score * (0.6 : ℚ) +
    metrics.character_consistency_score * (0.4 : ℚ)

/- ===================== LLM interface (src/llm_interface.py) ===================== -/

/-- One `{role, content}` entry of `OllamaInterface.history`. -/
structure ChatMsg where
  role : String
  content : String
deriving DecidableEq

/-- Decoded JSON body of a 200 reply from `/api/generate`: the `"response"`
key may be absent, in which case `result["response"]` raises `KeyError`. -/
structure GenerateJson where
  response : Option String

/-- Decoded JSON body of a 200 reply from `/api/chat`: collapses the nested
`result["message"]["content"]` access — `none` when either key is missing,
so that access raises `KeyError`. -/
structure ChatJson where
  message_content : Option String

/-- Models `OllamaInterface.generate` as a transition on the `history` state.
The `backend` argument is the outcome of `requests.post` + `raise_for_status`
+ `response.json()` of the `/api/generate` call: a transport error leaves the
history untouched (lines 71-72 catch only `RequestException`, before any
mutation).  On a 200 reply the source appends the user turn (line 66) BEFORE
reading `result["response"]` (line 67): when that key is missing, the
`KeyError` propagates uncaught with the user turn already appended and no
assistant turn. -/
def OllamaInterface.generate (history : List ChatMsg) (prompt : String)
    (backend : Except String GenerateJson) : Except String String × List ChatMsg :=
  match backend with
  | Except.error e =>
    (Except.error ("Error communicating with Ollama: " ++ e), history)
  | Except.ok result =>
    match result.response with
    | none =>
      (Except.error "KeyError: response", history ++ [⟨"user", prompt⟩])
    | some response =>
      (Except.ok response, history ++ [⟨"user", prompt⟩, ⟨"assistant", response⟩])

/-- Models `OllamaInterface.generate_with_chat_history`: a transport error
leaves the history untouched; on a 200 reply the source replaces the history
with `messages.copy()` (line 117) BEFORE reading
`result["message"]["content"]` (line 118): when that access raises, the
`KeyError` propagates uncaught with the history already replaced and no
assistant entry appended. -/
def OllamaInterface.generate_with_chat_history (history : List ChatMsg)
    (messages : List ChatMsg) (backend : Except String ChatJson) :
    Except String String × List ChatMsg :=
  match backend with
  | Except.error e =>
    (Except.error ("Error communicating with Ollama: " ++ e), history)
  | Except.ok result =>
    match result.message_content with
    | none =>
      (Except.error "KeyError: message.content", messages)
    | some response =>
      (Except.ok response, messages ++ [⟨"assistant", response⟩])

/- ============== Generation controller (src/viktor_ai.py) ============== -/

/-- The `while attempts < max_attempts` loop of `ViktorAI.generate_response`
(lines 183-231).  `gen n` is the response produced by the n-th generation call
(whether via `generate` or `generate_with_chat_history` — both count), and
`score r` is `evaluate_response(processed_input, r)["overall_score"]` for the
fixed per-turn input.  Returns the final `response` value and the number of
generation calls performed. -/
def generateLoop (gen : Nat → String) (score : String → ℚ)
    (hasClassifier useClassifier : Bool) (minScore : ℚ) (maxAttempts : Nat) :
    Nat → Nat → Option String → Option String × Nat := fun attempts calls response =>
  if h : attempts < maxAttempts then
    let r := gen calls
    if ¬(hasClassifier && useClassifier) then (some r, calls + 1)
    else if minScore ≤ score r then (some r, calls + 1)
    else if maxAttempts ≤ attempts + 1 then (some r, calls + 1)
    else generateLoop gen score hasClassifier useClassifier minScore maxAttempts
      (attempts + 1) (calls + 1) (some r)
  else (response, calls)
termination_by attempts _ _ => maxAttempts - attempts
decreasing_by omega

/-- Models `ViktorAI.generate_response`, retry part: `max_attempts = 3`, starting from
`attempts = 0` and `response = None`.  (Brain processing, retrieval and prompt
composition happen before the loop and do not affect the call count or which
response is returned.) -/
def ViktorAI.generate_response (gen : Nat → String) (score : String → ℚ)
    (hasClassifier useClassifier : Bool) (minScore : ℚ) : Option String × Nat :=
  generateLoop gen score hasClassifier useClassifier minScore 3 0 0 none

/- ===================== Concrete instances used by witnesses ===================== -/

/-- One-document store with a unit-norm embedding. -/
noncomputable def exampleStoreUnit : SimpleVectorStore Unit :=
  ⟨1, [[(1 : ℝ)]], ["d"], [()]⟩

/-- One-document store whose stored embedding has norm 2 (not unit-norm). -/
noncomputable def exampleStoreNorm2 : SimpleVectorStore Unit :=
  ⟨2, [[(2 : ℝ), 0]], ["d"], [()]⟩

/-- Judge text carrying an overall score, a primary score and both reasonings,
but no `Character Consistency Score` label at all. -/
def judgeTextNoConsistency : List Char :=
  ("Overall Score: 7\nOverall Reasoning: Good.\n\nPrimary Dimension Score: 8.5\nPrimary Dimension Reasoning: Fine.\n").toList

/-- A 300-character paragraph of the oversized markdown section. -/
def analysisParagraph : List Char := List.replicate 300 'a'

/-- A 2112-character section body: seven 300-character paragraphs separated by
blank lines. -/
def analysisContentB : List Char :=
  List.intercalate ['\n', '\n'] (List.replicate 7 analysisParagraph)

/-- Line list of the oversized section body: the seven paragraphs separated by
empty lines (joining them with a newline reproduces `analysisContentB`). -/
def bLines : List (List Char) :=
  [analysisParagraph, [], analysisParagraph, [], analysisParagraph, [], analysisParagraph, [],
    analysisParagraph, [], analysisParagraph, [], analysisParagraph]

/-- Markdown document with two `## ` headings; the second one is followed by
about 2000 characters of content.  Written as the newline-join of its lines:
this is the text `"## A\ncontentA\n## B\n" + analysisContentB`. -/
def twoHeadingDoc : List Char :=
  List.intercalate ['\n']
    ((("## A").toList) :: (("contentA").toList) :: (("## B").toList) :: bLines)

/-- The 100-character overlap copied from the tail of each flushed window. -/
def chunkTail : List Char := List.replicate 100 'a'

/-- Every window after the first: the 100-character overlap, a blank line, and
the next 300-character paragraph. -/
def bigChunk : List Char := chunkTail ++ ('\n' :: '\n' :: analysisParagraph)

/-- Markdown document with one `# ` heading followed by the same oversized
content, processed as a non-analysis source (e.g. the core profile).  Written
as the newline-join of its lines: the text `"# T\n" + analysisContentB`. -/
def oversizedSimpleDoc : List Char :=
  List.intercalate ['\n'] ((("# T").toList) :: bLines)

/-- Metrics record with primary 8 and consistency 6 (weighted-score instance). -/
def metricsPrimary8Consistency6 : EvalMetrics :=
  { overall_score := 7
    overall_reasoning := []
    primary_dimension_score := 8
    primary_dimension_reasoning := []
    character_consistency_score := 6
    character_consistency_reasoning := []
    question_type := ("technical").toList }

/- ===================== Theorems ===================== -/

/-- C1 (counterexample): a persisted artifact with one document, zero metadata
entries and zero embedding rows loads into a store whose counts disagree — no
verification happens and no `PersistenceMismatch` (or any other) error is
raised, contradicting the claim that `load` fails fast on a mismatch. -/
theorem load_mismatch_returns_misaligned_store :
    (SimpleVectorStore.load (⟨384, [], ["a"], []⟩ : StoredData Unit)).documents.length = 1 ∧
    (SimpleVectorStore.load (⟨384, [], ["a"], []⟩ : StoredData Unit)).metadata.length = 0 ∧
    (SimpleVectorStore.load (⟨384, [], ["a"], []⟩ : StoredData Unit)).documents.length ≠
      (SimpleVectorStore.load (⟨384, [], ["a"], []⟩ : StoredData Unit)).metadata.length := by
  refine ⟨rfl, rfl, ?_⟩
  decide

/-- C1 (amended): `load` restores the persisted documents, metadata and
embedding rows verbatim, performing no count verification at all; `save`
followed by `load` reproduces the store exactly. -/
theorem load_restores_verbatim_without_verification {μ : Type} :
    (∀ st : SimpleVectorStore μ, SimpleVectorStore.load st.save = st) ∧
    (∀ d : StoredData μ,
      (SimpleVectorStore.load d).documents = d.documents ∧
      (SimpleVectorStore.load d).metadata = d.metadata ∧
      (SimpleVectorStore.load d).vectors = d.vectors) := by
  refine ⟨fun st => ?_, fun d => ⟨rfl, rfl, rfl⟩⟩
  cases st
  rfl

/-- C8: the weighted score uses the fixed weights 0.6 / 0.4 for every metrics
record — the `question_type` field never influences it — and the record with
primary 8 and consistency 6 scores exactly 7.2. -/
theorem weighted_score_fixed_weights :
    (∀ (m : EvalMetrics) (qt : List Char),
      calculate_weighted_score { m with question_type := qt } = calculate_weighted_score m) ∧
    (∀ m : EvalMetrics,
      calculate_weighted_score m =
        m.primary_dimension_score * (0.6 : ℚ) + m.character_consistency_score * (0.4 : ℚ)) ∧
    calculate_weighted_score metricsPrimary8Consistency6 = (7.2 : ℚ) := by
  refine ⟨fun m qt => rfl, fun m => rfl, ?_⟩
  norm_num [calculate_weighted_score, metricsPrimary8Consistency6]

/-- C9: when the judge LLM call raises, `Evaluator.evaluate_response` does not
propagate the error: it returns the complete fallback metrics, with all three
scores exactly 5.0, all three reasonings non-empty placeholder strings, and
`question_type` the given-or-computed question type. -/
theorem evaluator_judge_error_returns_fallback (e question : List Char)
    (question_type : Option (List Char)) (headings_map : List (List Char × List Char)) :
    (Evaluator.evaluate_response (Except.error e) question question_type headings_map).overall_score = 5 ∧
    (Evaluator.evaluate_response (Except.error e) question question_type headings_map).primary_dimension_score = 5 ∧
    (Evaluator.evaluate_response (Except.error e) question question_type headings_map).character_consistency_score = 5 ∧
    (Evaluator.evaluate_response (Except.error e) question question_type headings_map).overall_reasoning ≠ [] ∧
    (Evaluator.evaluate_response (Except.error e) question question_type headings_map).primary_dimension_reasoning ≠ [] ∧
    (Evaluator.evaluate_response (Except.error e) question question_type headings_map).character_consistency_reasoning ≠ [] ∧
    (Evaluator.evaluate_response (Except.error e) question question_type headings_map).question_type =
      question_type.getD (get_question_type question headings_map) := by
  refine ⟨rfl, rfl, rfl, ?_, ?_, ?_, rfl⟩
  · show ("The evaluation process encountered an error: ").toList ++ e ++
        (". This is a fallback score provided when the evaluation couldn\x27t be completed properly.").toList ≠ []
    exact List.append_ne_nil_of_right_ne_nil _ (by decide)
  · show ("This is a default fallback score. The primary dimension evaluation couldn\x27t be completed due to an error in the evaluation process.").toList ≠ []
    decide
  · show ("This is a default fallback score. The character consistency evaluation couldn\x27t be completed due to an error in the evaluation process.").toList ≠ []
    decide

/-- C10 (counterexample): atomicity fails on a 200 reply with a malformed JSON
body.  Starting from empty history, `generate` on the body `{}` raises
(`KeyError: response`) with the user turn already appended — the call failed
yet the stored history changed.  Likewise `generate_with_chat_history` on a
body without `message.content` raises with the history already replaced by
the passed-in messages (here `[]`), losing the original entry. -/
theorem history_mutated_when_call_raises :
    (OllamaInterface.generate [] "hi" (Except.ok ⟨none⟩)).1 =
      Except.error "KeyError: response" ∧
    (OllamaInterface.generate [] "hi" (Except.ok ⟨none⟩)).2 = [⟨"user", "hi"⟩] ∧
    ([(⟨"user", "hi"⟩ : ChatMsg)] ≠ []) ∧
    (OllamaInterface.generate_with_chat_history [⟨"user", "old"⟩] []
        (Except.ok ⟨none⟩)).1 = Except.error "KeyError: message.content" ∧
    (OllamaInterface.generate_with_chat_history [⟨"user", "old"⟩] []
        (Except.ok ⟨none⟩)).2 = [] ∧
    (([] : List ChatMsg) ≠ [⟨"user", "old"⟩]) := by
  refine ⟨rfl, rfl, by decide, rfl, rfl, by decide⟩

/-- C10 (amended): history updates are atomic only with respect to
transport-level failure.  When the HTTP request, status check or JSON decode
raises, the stored history is unchanged; on a success carrying the expected
field, `generate` appends exactly the user and assistant turns and
`generate_with_chat_history` replaces the history wholesale with the
passed-in messages plus one assistant entry.  But on a 200 reply whose body
lacks the expected field, the uncaught `KeyError` propagates after the
mutation: `generate` leaves the user turn appended without an assistant turn,
and `generate_with_chat_history` leaves the history replaced by the messages
without the assistant entry. -/
theorem history_update_semantics_including_malformed_payload
    (history : List ChatMsg) (prompt : String) (messages : List ChatMsg)
    (e response : String) :
    (OllamaInterface.generate history prompt (Except.error e)).2 = history ∧
    (OllamaInterface.generate_with_chat_history history messages (Except.error e)).2 = history ∧
    (OllamaInterface.generate history prompt (Except.ok ⟨some response⟩)).2 =
      history ++ [⟨"user", prompt⟩, ⟨"assistant", response⟩] ∧
    (OllamaInterface.generate_with_chat_history history messages (Except.ok ⟨some response⟩)).2 =
      messages ++ [⟨"assistant", response⟩] ∧
    (OllamaInterface.generate history prompt (Except.ok ⟨none⟩)).1 =
      Except.error "KeyError: response" ∧
    (OllamaInterface.generate history prompt (Except.ok ⟨none⟩)).2 =
      history ++ [⟨"user", prompt⟩] ∧
    (OllamaInterface.generate_with_chat_history history messages (Except.ok ⟨none⟩)).1 =
      Except.error "KeyError: message.content" ∧
    (OllamaInterface.generate_with_chat_history history messages (Except.ok ⟨none⟩)).2 =
      messages :=
  ⟨rfl, rfl, rfl, rfl, rfl, rfl, rfl, rfl⟩

/-- C2: with quality gating enabled (classifier present and switched on) and a
classifier that scores every generated response below `min_response_score`,
the controller performs exactly `max_attempts = 3` generation calls and
returns the response of the third (last) call — regardless of how the three
candidates compare to each other. -/
theorem controller_exhausts_attempts_returns_last (gen : Nat → String)
    (score : String → ℚ) (minScore : ℚ) (h : ∀ s, score s < minScore) :
    ViktorAI.generate_response gen score true true minScore = (some (gen 2), 3) := by
  have h0 : ¬ (minScore ≤ score (gen 0)) := not_le.mpr (h (gen 0))
  have h1 : ¬ (minScore ≤ score (gen 1)) := not_le.mpr (h (gen 1))
  have h2 : ¬ (minScore ≤ score (gen 2)) := not_le.mpr (h (gen 2))
  rw [ViktorAI.generate_response]
  rw [generateLoop.eq_def]
  norm_num [h0]
  rw [generateLoop.eq_def]
  norm_num [h1]
  rw [generateLoop.eq_def]
  norm_num [h2]

/-- C2 (witness): a concrete always-failing classifier makes the loop run all
three generation calls and return the third response. -/
theorem controller_exhausts_attempts_returns_last_witness :
    ViktorAI.generate_response (fun _ => "r") (fun _ => 0) true true 1 = (some "r", 3) :=
  controller_exhausts_attempts_returns_last (fun _ => "r") (fun _ => 0) 1
    (fun _ => by norm_num)

/-- Sigmoid output is never negative. -/
theorem sigmoid_nonneg (x : ℝ) : 0 ≤ sigmoid x := by
  unfold sigmoid
  have hx : 0 < 1 + Real.exp (-x) := by positivity
  positivity

/-- Sigmoid output never exceeds one. -/
theorem sigmoid_le_one (x : ℝ) : sigmoid x ≤ 1 := by
  unfold sigmoid
  have hx : 0 < 1 + Real.exp (-x) := by positivity
  rw [div_le_one hx]
  have := (Real.exp_pos (-x)).le
  linarith

/-- C3: for every model weight assignment and every prompt/response pair,
`ResponseClassifier.evaluate_response` yields `character_accuracy`,
`response_quality` and `overall_score` all in [0, 1], with the overall score
exactly the arithmetic mean of the other two (both branch outputs pass
through a sigmoid, and the mean of two values of [0, 1] stays in [0, 1]). -/
theorem classifier_scores_bounded_overall_is_mean (m : ResponseQualityModel)
    (prompt response : List Char) :
    0 ≤ (ResponseClassifier.evaluate_response m prompt response).character_accuracy ∧
    (ResponseClassifier.evaluate_response m prompt response).character_accuracy ≤ 1 ∧
    0 ≤ (ResponseClassifier.evaluate_response m prompt response).response_quality ∧
    (ResponseClassifier.evaluate_response m prompt response).response_quality ≤ 1 ∧
    0 ≤ (ResponseClassifier.evaluate_response m prompt response).overall_score ∧
    (ResponseClassifier.evaluate_response m prompt response).overall_score ≤ 1 ∧
    (ResponseClassifier.evaluate_response m prompt response).overall_score =
      ((ResponseClassifier.evaluate_response m prompt response).character_accuracy +
        (ResponseClassifier.evaluate_response m prompt response).response_quality) / 2 := by
  have hc0 : 0 ≤ (ResponseClassifier.evaluate_response m prompt response).character_accuracy :=
    sigmoid_nonneg _
  have hc1 : (ResponseClassifier.evaluate_response m prompt response).character_accuracy ≤ 1 :=
    sigmoid_le_one _
  have hq0 : 0 ≤ (ResponseClassifier.evaluate_response m prompt response).response_quality :=
    sigmoid_nonneg _
  have hq1 : (ResponseClassifier.evaluate_response m prompt response).response_quality ≤ 1 :=
    sigmoid_le_one _
  refine ⟨hc0, hc1, hq0, hq1, ?_, ?_, rfl⟩
  · show 0 ≤ ((ResponseClassifier.evaluate_response m prompt response).character_accuracy +
      (ResponseClassifier.evaluate_response m prompt response).response_quality) / 2
    linarith
  · show ((ResponseClassifier.evaluate_response m prompt response).character_accuracy +
      (ResponseClassifier.evaluate_response m prompt response).response_quality) / 2 ≤ 1
    linarith

/-- The descending argsort is a permutation of the index range. -/
theorem argsortDesc_perm (scores : List ℝ) :
    (argsortDesc scores).Perm (List.range scores.length) :=
  List.perm_insertionSort _ _

/-- Length of the descending argsort. -/
theorem argsortDesc_length (scores : List ℝ) :
    (argsortDesc scores).length = scores.length := by
  rw [(argsortDesc_perm scores).length_eq, List.length_range]

/-- The descending argsort is sorted by non-increasing score. -/
theorem argsortDesc_sorted (scores : List ℝ) :
    List.Sorted (fun i j => scores.getD j 0 ≤ scores.getD i 0) (argsortDesc scores) := by
  haveI : IsTotal Nat (fun i j => scores.getD j 0 ≤ scores.getD i 0) :=
    ⟨fun a b => le_total _ _⟩
  haveI : IsTrans Nat (fun i j => scores.getD j 0 ≤ scores.getD i 0) :=
    ⟨fun a b c h1 h2 => le_trans h2 h1⟩
  exact List.sorted_insertionSort _ _

/-- For `top_k ≥ 1` the selection keeps at most `top_k` indices. -/
theorem topIndices_length_le (scores : List ℝ) (k : Nat) (hk : 1 ≤ k) :
    (topIndices scores k).length ≤ k := by
  unfold topIndices
  by_cases h1 : scores.length ≤ k
  · rw [if_pos h1, argsortDesc_length]; exact h1
  · rw [if_neg h1, if_neg (by omega), List.length_take]
    omega

/-- The selection is sorted by non-increasing score in every branch. -/
theorem topIndices_sorted (scores : List ℝ) (k : Nat) :
    List.Sorted (fun i j => scores.getD j 0 ≤ scores.getD i 0) (topIndices scores k) := by
  unfold topIndices
  by_cases h1 : scores.length ≤ k
  · rw [if_pos h1]; exact argsortDesc_sorted scores
  · rw [if_neg h1]
    by_cases h2 : k = 0
    · rw [if_pos h2]; exact argsortDesc_sorted scores
    · rw [if_neg h2]
      exact (argsortDesc_sorted scores).sublist (List.take_sublist _ _)

/-- When `top_k` covers the whole corpus, the selection is the full argsort. -/
theorem topIndices_all (scores : List ℝ) (k : Nat) (hk : scores.length ≤ k) :
    topIndices scores k = argsortDesc scores := by
  unfold topIndices
  rw [if_pos hk]

/-- Score lookup through the mapped score list equals the dot product of the
looked-up vector (both sides are 0 past the end). -/
theorem getD_map_dotList (l : List (List ℝ)) (q : List ℝ) (i : Nat) :
    (l.map (fun v => dotList v q)).getD i 0 = dotList (l.getD i []) q := by
  induction l generalizing i with
  | nil => cases i <;> simp [dotList]
  | cons v t ih =>
    cases i with
    | zero => simp
    | succ n =>
      simp only [List.map_cons, List.getD_cons_succ]
      exact ih n

/-- C4 (counterexample): on a non-empty store, `search(q, 0)` does NOT return
at most 0 results — the Python slice `[-0:]` keeps the whole argpartition
array, so the entire corpus comes back. -/
theorem search_topk_zero_returns_whole_corpus :
    (exampleStoreUnit.search [(1 : ℝ)] 0).length = 1 ∧
    ¬ ((exampleStoreUnit.search [(1 : ℝ)] 0).length ≤ 0) := by
  have h : (exampleStoreUnit.search [(1 : ℝ)] 0).length = 1 := by
    rw [SimpleVectorStore.search]
    simp [exampleStoreUnit, topIndices, argsortDesc_length]
  exact ⟨h, by omega⟩

/-- C4 (amended): for every aligned store, `search(q, k)` with `k ≥ 1` returns
at most `k` results, results are always sorted by non-increasing score, a `k`
at least the corpus size returns the whole corpus (every index exactly once),
and the empty store yields `[]`.  (For `k = 0` on a non-empty store the whole
corpus comes back instead — see the counterexample.) -/
theorem search_bounded_sorted_total (μ : Type) [Inhabited μ]
    (st : SimpleVectorStore μ) (q : List ℝ) (k : Nat)
    (halign : st.vectors.length = st.documents.length) :
    (1 ≤ k → (st.search q k).length ≤ k) ∧
    (st.search q k).Pairwise (fun a b => b.2.1 ≤ a.2.1) ∧
    (st.documents.length ≤ k →
      ((st.search q k).map (fun r => r.1)).Perm (List.range st.documents.length)) ∧
    (st.documents = [] → st.search q k = []) := by
  by_cases hd : st.documents.length = 0
  · have he : st.search q k = [] := by
      rw [SimpleVectorStore.search]
      simp [hd]
    refine ⟨fun _ => by simp [he], by simp [he], fun _ => ?_, fun _ => he⟩
    rw [he, hd]
    simp
  · have hs : st.search q k =
        (topIndices (st.vectors.map (fun v => dotList v (pyNormalize q))) k).map
          (fun i => (i, (st.vectors.map (fun v => dotList v (pyNormalize q))).getD i 0,
            st.documents.getD i "", st.metadata.getD i default)) := by
      rw [SimpleVectorStore.search]
      simp [hd]
    have hslen : (st.vectors.map (fun v => dotList v (pyNormalize q))).length =
        st.documents.length := by
      rw [List.length_map, halign]
    refine ⟨fun hk => ?_, ?_, fun hk => ?_, fun hnil => absurd (by rw [hnil]; rfl) hd⟩
    · rw [hs, List.length_map]
      exact topIndices_length_le _ k hk
    · rw [hs, List.pairwise_map]
      exact topIndices_sorted _ k
    · rw [hs, List.map_map]
      have hid : ((fun r : Nat × ℝ × String × μ => r.1) ∘
          (fun i => (i, (st.vectors.map (fun v => dotList v (pyNormalize q))).getD i 0,
            st.documents.getD i "", st.metadata.getD i default))) = id := rfl
      rw [hid, List.map_id, topIndices_all _ k (by omega)]
      have hperm := argsortDesc_perm (st.vectors.map (fun v => dotList v (pyNormalize q)))
      rw [hslen] at hperm
      exact hperm

/-- C4 (witness): the amended theorem instantiated on a concrete one-document
store with `k = 1`. -/
theorem search_bounded_sorted_total_witness :
    (1 ≤ 1 → (exampleStoreUnit.search [(1 : ℝ)] 1).length ≤ 1) ∧
    (exampleStoreUnit.search [(1 : ℝ)] 1).Pairwise (fun a b => b.2.1 ≤ a.2.1) ∧
    (exampleStoreUnit.documents.length ≤ 1 →
      ((exampleStoreUnit.search [(1 : ℝ)] 1).map (fun r => r.1)).Perm
        (List.range exampleStoreUnit.documents.length)) ∧
    (exampleStoreUnit.documents = [] → exampleStoreUnit.search [(1 : ℝ)] 1 = []) :=
  search_bounded_sorted_total Unit exampleStoreUnit [(1 : ℝ)] 1 rfl

/-- C5 (amended): every result score of `search` is the dot product of the
RAW stored embedding at the result index with the normalised query — only the
query is L2-normalised, the stored vectors are used as-is. -/
theorem search_scores_are_dot_with_normalized_query {μ : Type} [Inhabited μ]
    (st : SimpleVectorStore μ) (q : List ℝ) (k : Nat) (r : Nat × ℝ × String × μ)
    (hr : r ∈ st.search q k) :
    r.2.1 = dotList (st.vectors.getD r.1 []) (pyNormalize q) := by
  by_cases hd : st.documents.length = 0
  · rw [SimpleVectorStore.search] at hr
    simp [hd] at hr
  · rw [SimpleVectorStore.search] at hr
    simp only [hd, if_false, if_neg hd] at hr
    obtain ⟨i, hi, rfl⟩ := List.mem_map.mp hr
    exact getD_map_dotList st.vectors (pyNormalize q) i

/-- The query `[1, 0]` has norm 1. -/
theorem l2norm_one_zero : l2norm [(1 : ℝ), 0] = 1 := by
  unfold l2norm
  norm_num

/-- The stored vector `[2, 0]` has norm 2. -/
theorem l2norm_two_zero : l2norm [(2 : ℝ), 0] = 2 := by
  unfold l2norm
  norm_num
  rw [show ((4 : ℝ) = 2 ^ 2) by norm_num]
  exact Real.sqrt_sq (by norm_num)

/-- Normalising the unit query leaves it unchanged. -/
theorem pyNormalize_one_zero : pyNormalize [(1 : ℝ), 0] = [1, 0] := by
  unfold pyNormalize
  rw [l2norm_one_zero]
  norm_num

/-- Normalising `[2, 0]` yields the unit vector. -/
theorem pyNormalize_two_zero : pyNormalize [(2 : ℝ), 0] = [1, 0] := by
  unfold pyNormalize
  rw [l2norm_two_zero]
  norm_num

/-- Concrete run: searching the norm-2 store with the unit query returns the
single document with score 2 (the raw dot product). -/
theorem search_norm2_eval :
    exampleStoreNorm2.search [(1 : ℝ), 0] 5 = [(0, (2 : ℝ), "d", ())] := by
  rw [SimpleVectorStore.search]
  simp only [exampleStoreNorm2, pyNormalize_one_zero]
  norm_num [topIndices, argsortDesc, List.insertionSort, List.orderedInsert, dotList]

/-- C5 (counterexample): on a store holding the non-unit vector `[2, 0]`, the
search score for the query `[1, 0]` is 2, while the cosine similarity of the
two vectors is 1 — so `search` does not score by cosine similarity (it never
normalises the stored embeddings). -/
theorem search_score_is_not_cosine_similarity :
    exampleStoreNorm2.search [(1 : ℝ), 0] 5 = [(0, (2 : ℝ), "d", ())] ∧
    cosineSimilaritySpec [(1 : ℝ), 0] [(2 : ℝ), 0] = 1 ∧ ((2 : ℝ) ≠ 1) := by
  refine ⟨search_norm2_eval, ?_, by norm_num⟩
  unfold cosineSimilaritySpec
  rw [pyNormalize_one_zero, pyNormalize_two_zero]
  norm_num [dotList]

/-- C5 (witness): the amended theorem applied to the concrete norm-2 store. -/
theorem search_scores_are_dot_with_normalized_query_witness :
    ((0, (2 : ℝ), "d", ()) : Nat × ℝ × String × Unit).2.1 =
      dotList (exampleStoreNorm2.vectors.getD 0 []) (pyNormalize [(1 : ℝ), 0]) :=
  search_scores_are_dot_with_normalized_query exampleStoreNorm2 [(1 : ℝ), 0] 5
    (0, (2 : ℝ), "d", ()) (by rw [search_norm2_eval]; exact List.mem_singleton.mpr rfl)

/-- The clamping loop never returns a negative score. -/
theorem clampScore_nonneg (q : ℚ) : 0 ≤ clampScore q := by
  unfold clampScore
  split_ifs with h1 h2
  · norm_num
  · norm_num
  · linarith

/-- The clamping loop never returns a score above 10. -/
theorem clampScore_le_ten (q : ℚ) : clampScore q ≤ 10 := by
  unfold clampScore
  split_ifs with h1 h2
  · norm_num
  · norm_num
  · linarith

/-- C6: rubric parsing is per-field.  For every judge text: all three scores
land in [0, 10] (the clamp); each score equals the clamp of its own regex
extraction when that extraction succeeds and defaults to 5.0 when it fails,
independently of the other fields; a missing reasoning is replaced by the
fixed placeholder (non-empty).  In particular, the concrete text carrying
`Overall Score: 7` and `Primary Dimension Score: 8.5` but no
`Character Consistency Score` label parses to (7, 8.5, 5) with the two present
reasonings extracted verbatim — no exception, no cross-field damage. -/
theorem rubric_parsing_is_per_field_with_defaults :
    (∀ t qt : List Char,
      (0 ≤ (parseMetrics t qt).overall_score ∧ (parseMetrics t qt).overall_score ≤ 10) ∧
      (0 ≤ (parseMetrics t qt).primary_dimension_score ∧
        (parseMetrics t qt).primary_dimension_score ≤ 10) ∧
      (0 ≤ (parseMetrics t qt).character_consistency_score ∧
        (parseMetrics t qt).character_consistency_score ≤ 10) ∧
      (findScoreNum overallScoreLabel false t = none → (parseMetrics t qt).overall_score = 5) ∧
      (∀ v, findScoreNum overallScoreLabel false t = some v →
        (parseMetrics t qt).overall_score = clampScore v) ∧
      (findScoreNum primaryScoreLabel true t = none →
        (parseMetrics t qt).primary_dimension_score = 5) ∧
      (∀ v, findScoreNum primaryScoreLabel true t = some v →
        (parseMetrics t qt).primary_dimension_score = clampScore v) ∧
      (findScoreNum consistencyScoreLabel true t = none →
        (parseMetrics t qt).character_consistency_score = 5) ∧
      (∀ v, findScoreNum consistencyScoreLabel true t = some v →
        (parseMetrics t qt).character_consistency_score = clampScore v) ∧
      (findReasoning consistencyReasoningLabel [] t = none →
        (parseMetrics t qt).character_consistency_reasoning =
          cleanupText consistencyReasoningDefault ∧
        (parseMetrics t qt).character_consistency_reasoning ≠ [])) ∧
    (findScoreNum consistencyScoreLabel true judgeTextNoConsistency = none ∧
      (parseMetrics judgeTextNoConsistency (("identity").toList)).overall_score = 7 ∧
      (parseMetrics judgeTextNoConsistency (("identity").toList)).primary_dimension_score = 17 / 2 ∧
      (parseMetrics judgeTextNoConsistency (("identity").toList)).character_consistency_score = 5 ∧
      (parseMetrics judgeTextNoConsistency (("identity").toList)).overall_reasoning =
        ("Good.").toList ∧
      (parseMetrics judgeTextNoConsistency (("identity").toList)).primary_dimension_reasoning =
        ("Fine.").toList) := by
  constructor
  · intro t qt
    refine ⟨⟨clampScore_nonneg _, clampScore_le_ten _⟩,
      ⟨clampScore_nonneg _, clampScore_le_ten _⟩,
      ⟨clampScore_nonneg _, clampScore_le_ten _⟩, ?_, ?_, ?_, ?_, ?_, ?_, ?_⟩
    · intro h
      show clampScore ((findScoreNum overallScoreLabel false t).getD 5) = 5
      rw [h]
      norm_num [clampScore]
    · intro v hv
      show clampScore ((findScoreNum overallScoreLabel false t).getD 5) = clampScore v
      rw [hv]
      rfl
    · intro h
      show clampScore ((findScoreNum primaryScoreLabel true t).getD 5) = 5
      rw [h]
      norm_num [clampScore]
    · intro v hv
      show clampScore ((findScoreNum primaryScoreLabel true t).getD 5) = clampScore v
      rw [hv]
      rfl
    · intro h
      show clampScore ((findScoreNum consistencyScoreLabel true t).getD 5) = 5
      rw [h]
      norm_num [clampScore]
    · intro v hv
      show clampScore ((findScoreNum consistencyScoreLabel true t).getD 5) = clampScore v
      rw [hv]
      rfl
    · intro h
      refine ⟨?_, ?_⟩
      · show cleanupText ((findReasoning consistencyReasoningLabel [] t).getD
            consistencyReasoningDefault) = cleanupText consistencyReasoningDefault
        rw [h]
        rfl
      · show cleanupText ((findReasoning consistencyReasoningLabel [] t).getD
            consistencyReasoningDefault) ≠ []
        rw [h]
        decide
  · have h85 : findScoreNum primaryScoreLabel true judgeTextNoConsistency =
        some (17 / 2 : ℚ) := by
      rw [show findScoreNum primaryScoreLabel true judgeTextNoConsistency =
        some ((digitsToNat ['8'] : ℚ) + (digitsToNat ['5'] : ℚ) / (10 : ℚ) ^ 1) from rfl]
      norm_num [show digitsToNat ['8'] = 8 from by decide,
        show digitsToNat ['5'] = 5 from by decide]
    refine ⟨by decide, by decide, ?_, by decide, by decide, by decide⟩
    show clampScore ((findScoreNum primaryScoreLabel true judgeTextNoConsistency).getD 5) = 17 / 2
    rw [h85]
    norm_num [clampScore]

/-- C6 (witness): on the concrete judge text with no consistency label, the
consistency-score extraction fails and the parsed consistency score defaults
to 5.0. -/
theorem rubric_parsing_is_per_field_with_defaults_witness :
    (parseMetrics judgeTextNoConsistency (("identity").toList)).character_consistency_score = 5 := by
  have h := rubric_parsing_is_per_field_with_defaults.1 judgeTextNoConsistency
    (("identity").toList)
  exact h.2.2.2.2.2.2.2.1 (by decide)

/-- A list is a Boolean prefix of itself followed by anything. -/
theorem isPrefixOf_append_self (l1 l2 : List Char) : l1.isPrefixOf (l1 ++ l2) = true := by
  induction l1 with
  | nil => simp [List.isPrefixOf]
  | cons a t ih => simp [List.isPrefixOf, ih]

/-- Scanning a separator-free piece just moves it into the accumulator. -/
theorem pySplitGo_piece (d : Char) (ds : List Char) (p : List Char)
    (hp : ∀ c ∈ p, c ≠ d) :
    ∀ (fuel : Nat) (s acc : List Char), p.length ≤ fuel →
      pySplitGo (d :: ds) fuel (p ++ s) acc =
        pySplitGo (d :: ds) (fuel - p.length) s (p.reverse ++ acc) := by
  induction p with
  | nil => intro fuel s acc _; simp
  | cons c p' ih =>
    intro fuel s acc hfuel
    cases fuel with
    | zero => simp at hfuel
    | succ f =>
      have hdc : (d == c) = false := beq_false_of_ne (fun h => (hp c (by simp)) h.symm)
      show pySplitGo (d :: ds) (f + 1) (c :: (p' ++ s)) acc = _
      rw [pySplitGo]
      simp only [List.isPrefixOf, hdc, Bool.false_and, ne_eq, and_false, if_false,
        reduceCtorEq, not_false_eq_true, true_and, Bool.false_eq_true]
      have hle : p'.length ≤ f := by
        have hf2 := hfuel
        simp only [List.length_cons] at hf2
        omega
      rw [ih (fun c2 hc2 => hp c2 (List.mem_cons_of_mem c hc2)) f s (c :: acc) hle]
      have harith : f + 1 - (c :: p').length = f - p'.length := by simp
      rw [harith]
      simp [List.append_assoc]
  
/-- Scanning at a separator boundary flushes the accumulated piece. -/
theorem pySplitGo_boundary (d : Char) (ds s acc : List Char) (fuel : Nat) (hfuel : 1 ≤ fuel) :
    pySplitGo (d :: ds) fuel ((d :: ds) ++ s) acc =
      acc.reverse :: pySplitGo (d :: ds) (fuel - 1) s [] := by
  cases fuel with
  | zero => omega
  | succ f =>
    show pySplitGo (d :: ds) (f + 1) (d :: (ds ++ s)) acc = _
    rw [pySplitGo]
    simp only [List.isPrefixOf, beq_self_eq_true, Bool.true_and, isPrefixOf_append_self,
      ne_eq, reduceCtorEq, not_false_eq_true, true_and, if_true]
    rw [show (d :: (ds ++ s)).drop (d :: ds).length = s from by
      simp only [List.length_cons, List.drop_succ_cons]
      exact List.drop_left ds s]
    simp

/-- Splitting the separator-join of separator-free pieces recovers the pieces. -/
theorem pySplitGo_intercalate (d : Char) (ds : List Char) :
    ∀ (ps : List (List Char)), ps ≠ [] → (∀ p ∈ ps, ∀ c ∈ p, c ≠ d) →
    ∀ fuel, (List.intercalate (d :: ds) ps).length ≤ fuel →
      pySplitGo (d :: ds) fuel (List.intercalate (d :: ds) ps) [] = ps := by
  intro ps
  induction ps with
  | nil => intro h; exact absurd rfl h
  | cons p ps' ih =>
    intro _ hfree fuel hfuel
    cases ps' with
    | nil =>
      have h1 : List.intercalate (d :: ds) [p] = p := by simp [List.intercalate]
      rw [h1] at hfuel ⊢
      calc pySplitGo (d :: ds) fuel p [] = pySplitGo (d :: ds) fuel (p ++ []) [] := by
            rw [List.append_nil]
        _ = pySplitGo (d :: ds) (fuel - p.length) [] (p.reverse ++ []) :=
            pySplitGo_piece d ds p (hfree p (by simp)) fuel [] [] hfuel
        _ = [p] := by simp [pySplitGo]
    | cons q ps'' =>
      have hic : List.intercalate (d :: ds) (p :: q :: ps'') =
          p ++ ((d :: ds) ++ List.intercalate (d :: ds) (q :: ps'')) := by
        simp [List.intercalate, List.intersperse_cons_cons]
      rw [hic] at hfuel ⊢
      have hlen : p.length + ds.length + 1 + (List.intercalate (d :: ds) (q :: ps'')).length ≤ fuel := by
        simp [List.length_append] at hfuel
        omega
      rw [pySplitGo_piece d ds p (hfree p (by simp)) fuel _ [] (by omega)]
      rw [pySplitGo_boundary d ds _ _ _ (by omega)]
      rw [ih (by simp) (fun r hr => hfree r (by simp [hr])) (fuel - p.length - 1) (by omega)]
      simp

/-- Python split is a left inverse of joining separator-free pieces. -/
theorem pySplit_intercalate (d : Char) (ds : List Char) (ps : List (List Char))
    (hne : ps ≠ []) (hfree : ∀ p ∈ ps, ∀ c ∈ p, c ≠ d) :
    pySplit (d :: ds) (List.intercalate (d :: ds) ps) = ps :=
  pySplitGo_intercalate d ds ps hne hfree _ le_rfl

/-- The test paragraph contains no newline. -/
theorem noNl_analysisParagraph : ∀ c ∈ analysisParagraph, c ≠ '\n' := by
  intro c hc
  rw [List.eq_of_mem_replicate hc]
  decide

/-- Paragraph-splitting the oversized section body recovers its 7 paragraphs. -/
theorem pySplit_analysisContentB :
    pySplit ['\n', '\n'] analysisContentB = List.replicate 7 analysisParagraph := by
  apply pySplit_intercalate
  · simp
  · intro p hp
    rw [List.eq_of_mem_replicate hp]
    exact noNl_analysisParagraph

/-- Length of the test paragraph. -/
theorem analysisParagraph_length : analysisParagraph.length = 300 := by
  simp [analysisParagraph]

/-- The oversized section body is 2112 characters long. -/
theorem analysisContentB_length : analysisContentB.length = 2112 := by
  show (List.intercalate ['\n', '\n'] (List.replicate 7 analysisParagraph)).length = 2112
  simp [List.replicate_succ, List.intercalate, List.intersperse_cons_cons,
    analysisParagraph_length]

/-- Joining the section body lines with newlines reproduces the body. -/
theorem pyJoin_bLines : pyJoin ['\n'] bLines = analysisContentB := by
  simp [pyJoin, bLines, analysisContentB, List.replicate_succ, List.intercalate,
    List.intersperse_cons_cons]

/-- Line-splitting the two-heading document yields its 16 lines. -/
theorem pySplit_twoHeadingDoc :
    pySplit ['\n'] twoHeadingDoc =
      (("## A").toList) :: (("contentA").toList) :: (("## B").toList) :: bLines := by
  apply pySplit_intercalate
  · simp
  · intro p hp
    have hcases : p = ("## A").toList ∨ p = ("contentA").toList ∨ p = ("## B").toList ∨
        p = analysisParagraph ∨ p = [] := by
      simp [bLines] at hp
      tauto
    rcases hcases with rfl | rfl | rfl | rfl | rfl
    · decide
    · decide
    · decide
    · exact noNl_analysisParagraph
    · intro c hc
      simp at hc

/-- Sectioning the two-heading document yields the two expected sections. -/
theorem extract_twoHeadingDoc :
    extract_sections_from_markdown twoHeadingDoc =
      [(("## A").toList, ("contentA").toList), (("## B").toList, analysisContentB)] := by
  have hpre1 : List.isPrefixOf ['#', ' '] analysisParagraph = false := by decide
  have hpre2 : List.isPrefixOf ['#', '#', ' '] analysisParagraph = false := by decide
  have hA1 : List.isPrefixOf ['#', ' '] (("## A").toList) = false := by decide
  have hA2 : List.isPrefixOf ['#', '#', ' '] (("## A").toList) = true := by decide
  have hB1 : List.isPrefixOf ['#', ' '] (("## B").toList) = false := by decide
  have hB2 : List.isPrefixOf ['#', '#', ' '] (("## B").toList) = true := by decide
  have hC1 : List.isPrefixOf ['#', ' '] (("contentA").toList) = false := by decide
  have hC2 : List.isPrefixOf ['#', '#', ' '] (("contentA").toList) = false := by decide
  have hN1 : List.isPrefixOf ['#', ' '] ([] : List Char) = false := by decide
  have hN2 : List.isPrefixOf ['#', '#', ' '] ([] : List Char) = false := by decide
  have hEA : (("## A").toList).isEmpty = false := by decide
  have hEB : (("## B").toList).isEmpty = false := by decide
  rw [extract_sections_from_markdown, pySplit_twoHeadingDoc]
  rw [show analysisContentB = pyJoin ['\n'] bLines from (pyJoin_bLines).symm]
  simp [extractGo, bLines, hpre1, hpre2, hA1, hA2, hB1, hB2, hC1, hC2, hN1, hN2,
    hEA, hEB, pyJoin, List.intercalate]

/-- Chunking the 2112-character section yields 7 overlapping windows. -/
theorem chunks_analysisContentB :
    split_text_into_chunks analysisContentB 500 100 =
      analysisParagraph :: List.replicate 6 bigChunk := by
  have hne : analysisContentB.isEmpty = false := by decide
  rw [split_text_into_chunks, hne]
  rw [show pySplit ['\n', '\n'] analysisContentB = List.replicate 7 analysisParagraph from
    pySplit_analysisContentB]
  decide

/-- The oversized section body exceeds the 1000-character threshold. -/
theorem analysisContentB_gt_1000 : 1000 < analysisContentB.length := by
  rw [analysisContentB_length]
  norm_num

/-- Line-splitting the one-heading document yields its 14 lines. -/
theorem pySplit_oversizedSimpleDoc :
    pySplit ['\n'] oversizedSimpleDoc = (("# T").toList) :: bLines := by
  apply pySplit_intercalate
  · simp
  · intro p hp
    have hcases : p = ("# T").toList ∨ p = analysisParagraph ∨ p = [] := by
      simp [bLines] at hp
      tauto
    rcases hcases with rfl | rfl | rfl
    · decide
    · exact noNl_analysisParagraph
    · intro c hc
      simp at hc

/-- Sectioning the one-heading document yields its single oversized section. -/
theorem extract_oversizedSimpleDoc :
    extract_sections_from_markdown oversizedSimpleDoc =
      [(("# T").toList, analysisContentB)] := by
  have hpre1 : List.isPrefixOf ['#', ' '] analysisParagraph = false := by decide
  have hpre2 : List.isPrefixOf ['#', '#', ' '] analysisParagraph = false := by decide
  have hT1 : List.isPrefixOf ['#', ' '] (("# T").toList) = true := by decide
  have hN1 : List.isPrefixOf ['#', ' '] ([] : List Char) = false := by decide
  have hN2 : List.isPrefixOf ['#', '#', ' '] ([] : List Char) = false := by decide
  have hET : (("# T").toList).isEmpty = false := by decide
  rw [extract_sections_from_markdown, pySplit_oversizedSimpleDoc]
  rw [show analysisContentB = pyJoin ['\n'] bLines from (pyJoin_bLines).symm]
  simp [extractGo, bLines, hpre1, hpre2, hT1, hN1, hN2, hET, pyJoin, List.intercalate]

/-- Mapping a function of the index over an enumeration. -/
theorem enum_map_fst_general {α β : Type} (g : Nat → β) (l : List α) :
    l.enum.map (fun ic => g ic.1) = (List.range l.length).map g := by
  rw [List.enum_eq_zip_range, show (fun ic : Nat × α => g ic.1) = g ∘ Prod.fst from rfl,
    ← List.map_map, List.map_fst_zip _ _ (by simp)]

/-- Mapping a constant over an enumeration gives a replicate. -/
theorem enum_map_const {α β : Type} (b : β) (l : List α) :
    l.enum.map (fun _ => b) = List.replicate l.length b := by
  rw [List.map_const', List.enum_length]

/-- C7 (amended): in the character-analysis branch of `process_character_data`
(the only branch that chunks), every section whose content exceeds 1000
characters is split by `split_text_into_chunks(content, 500, 100)` and its
documents carry `part = i+1` and `total_parts = n` tags, one per window.  The
concrete two-`## `-heading document whose second section holds 2112 characters
yields exactly one untagged chunk for the first heading and 7 overlapping
part-tagged chunks for the second; each window after the first starts with the
100-character tail of the previous one. -/
theorem analysis_sections_chunked_with_part_tags :
    (∀ title content : List Char, 1000 < content.length →
      (processAnalysisSection title content).map (fun d => d.metadata.part) =
        (List.range (split_text_into_chunks content 500 100).length).map (fun i => some (i + 1)) ∧
      (processAnalysisSection title content).map (fun d => d.metadata.total_parts) =
        List.replicate (split_text_into_chunks content 500 100).length
          (some (split_text_into_chunks content 500 100).length) ∧
      (processAnalysisSection title content).length =
        (split_text_into_chunks content 500 100).length) ∧
    (split_text_into_chunks analysisContentB 500 100 =
        analysisParagraph :: List.replicate 6 bigChunk ∧
      extract_sections_from_markdown twoHeadingDoc =
        [(("## A").toList, ("contentA").toList), (("## B").toList, analysisContentB)] ∧
      (processAnalysisSections (extract_sections_from_markdown twoHeadingDoc)).map
          (fun d => (d.metadata.sectionTitle, d.metadata.part, d.metadata.total_parts)) =
        ((("A").toList, none, none) ::
          (List.range 7).map (fun i => ((("B").toList : List Char), some (i + 1), some 7))) ∧
      bigChunk.take 100 = chunkTail ∧
      analysisParagraph.drop (analysisParagraph.length - 100) = chunkTail ∧
      bigChunk.drop (bigChunk.length - 100) = chunkTail) := by
  constructor
  · intro title content h
    unfold processAnalysisSection
    rw [if_pos h]
    refine ⟨?_, ?_, ?_⟩
    · rw [List.map_map]
      exact enum_map_fst_general (fun i => some (i + 1)) _
    · rw [List.map_map]
      exact enum_map_const _ _
    · rw [List.length_map, List.enum_length]
  · have hB : processAnalysisSection (("## B").toList) analysisContentB =
        (analysisParagraph :: List.replicate 6 bigChunk).enum.map
          (fun ic : Nat × List Char =>
            ({ text := partText (("## B").toList) (ic.1 + 1)
                  (analysisParagraph :: List.replicate 6 bigChunk).length ic.2
               metadata :=
                 { source := ("character_analysis").toList
                   sectionTitle := pyStripChars hashSpace (("## B").toList)
                   part := some (ic.1 + 1)
                   total_parts := some (analysisParagraph :: List.replicate 6 bigChunk).length
                   type := ("scenes_and_events").toList } } : PyDocument)) := by
      unfold processAnalysisSection
      rw [if_pos analysisContentB_gt_1000, chunks_analysisContentB]
    refine ⟨chunks_analysisContentB, extract_twoHeadingDoc, ?_, by decide, by decide, by decide⟩
    rw [extract_twoHeadingDoc]
    simp only [processAnalysisSections, List.flatMap_cons, List.flatMap_nil, List.append_nil]
    rw [hB]
    decide

/-- C7 (witness): the part-tag equation instantiated on the concrete oversized
section. -/
theorem analysis_sections_chunked_with_part_tags_witness :
    (processAnalysisSection (("## B").toList) analysisContentB).map (fun d => d.metadata.part) =
      (List.range (split_text_into_chunks analysisContentB 500 100).length).map
        (fun i => some (i + 1)) :=
  (analysis_sections_chunked_with_part_tags.1 (("## B").toList) analysisContentB
    (by simp [analysisContentB_length])).1

/-- C7 (counterexample): indexing a core-profile markdown document whose single
section content exceeds 1000 characters yields exactly ONE document with no
`part`/`total_parts` tags — only the character-analysis branch ever splits, so
the claim quantified over every markdown document is false. -/
theorem core_profile_oversized_section_not_split :
    extract_sections_from_markdown oversizedSimpleDoc = [(("# T").toList, analysisContentB)] ∧
    1000 < analysisContentB.length ∧
    (processSimpleSections (("core_profile").toList) (("character_trait").toList)
        (extract_sections_from_markdown oversizedSimpleDoc)).length = 1 ∧
    (processSimpleSections (("core_profile").toList) (("character_trait").toList)
        (extract_sections_from_markdown oversizedSimpleDoc)).map
        (fun d => (d.metadata.sectionTitle, d.metadata.part, d.metadata.total_parts)) =
      [((("T").toList : List Char), none, none)] := by
  refine ⟨extract_oversizedSimpleDoc, analysisContentB_gt_1000, ?_, ?_⟩
  · rw [extract_oversizedSimpleDoc]
    rfl
  · rw [extract_oversizedSimpleDoc]
    decide
